import Mathlib

/-!
Verification of the streaming speech-recognition session core of the
`meeting-translate` repository (files `stt_base.py`, `asr.py`,
`iflytek_asr.py`, `deepgram_asr.py`).  The Python sources are shallowly
embedded: byte strings become `List Nat` (each element a byte value),
Python `str` becomes Lean `String`, machine integers become `Nat`
(reduced mod 2^32 where the algorithm requires 32-bit wrap-around),
and the mutable per-session objects become explicit state records with
the methods embedded as pure state-transformer functions.
-/

namespace MeetingTranslate

/-! ## Generic byte/list helpers -/

/-- Fuel-driven worker for `chunksOf` (structural recursion on the fuel so
that the kernel can evaluate it; `chunksOf` supplies enough fuel). -/
def chunksOfF : Nat → Nat → List α → List (List α)
  | 0, _, _ => []
  | _ + 1, _, [] => []
  | fuel + 1, n, a :: l =>
    if n = 0 then []
    else (a :: l).take n :: chunksOfF fuel n ((a :: l).drop n)

/-- Split a list into consecutive pieces of at most `n` elements, in order.
This embeds the `while offset < len(chunk): piece = chunk[offset:offset+n]`
loops of the Python sources (and the block splitting inside SHA-256). -/
def chunksOf (n : Nat) (l : List α) : List (List α) :=
  chunksOfF l.length n l

/-- Big-endian byte encoding of `v` in exactly `k` bytes (truncating high bits). -/
def natToBytesBE : Nat → Nat → List Nat
  | 0, _ => []
  | k + 1, v => natToBytesBE k (v / 256) ++ [v % 256]

/-- UTF-8 encoding of a single Unicode code point. -/
def utf8EncodeCp (c : Nat) : List Nat :=
  if c < 128 then [c]
  else if c < 2048 then [192 + c / 64, 128 + c % 64]
  else if c < 65536 then [224 + c / 4096, 128 + (c / 64) % 64, 128 + c % 64]
  else [240 + c / 262144, 128 + (c / 4096) % 64, 128 + (c / 64) % 64, 128 + c % 64]

/-- UTF-8 bytes of a string, as Python's `str.encode('utf-8')` produces. -/
def strBytes (s : String) : List Nat :=
  s.data.flatMap (fun c => utf8EncodeCp c.toNat)

/-- Python `str.strip()` whitespace test, restricted to the ASCII whitespace
characters (space, tab, newline, carriage return, vertical tab, form feed). -/
def isPySpace (c : Char) : Bool :=
  c.toNat = 32 || c.toNat = 9 || c.toNat = 10 || c.toNat = 13 ||
  c.toNat = 11 || c.toNat = 12

/-- Embedding of Python `str.strip()`: drop whitespace from both ends. -/
def pyStrip (s : String) : String :=
  String.mk (((s.data.dropWhile isPySpace).reverse.dropWhile isPySpace).reverse)

/-- Embedding of Python `str.endswith(t)`. -/
def pyEndsWith (s t : String) : Bool :=
  t.data.isSuffixOf s.data

/-! ## SHA-256 (FIPS 180-4), as used by `hashlib.sha256` in `iflytek_asr.py` -/

/-- Truncate to a 32-bit word. -/
def w32 (x : Nat) : Nat := x % 4294967296

/-- Right rotation of a 32-bit word. -/
def rotr32 (n x : Nat) : Nat := w32 ((x >>> n) ||| (x <<< (32 - n)))

def shaCh (x y z : Nat) : Nat := (x &&& y) ^^^ ((x ^^^ 4294967295) &&& z)

def shaMaj (x y z : Nat) : Nat := (x &&& y) ^^^ (x &&& z) ^^^ (y &&& z)

/-- The big-sigma-0 word function of the compression loop. -/
def sumA (x : Nat) : Nat := rotr32 2 x ^^^ rotr32 13 x ^^^ rotr32 22 x

/-- The big-sigma-1 word function of the compression loop. -/
def sumE (x : Nat) : Nat := rotr32 6 x ^^^ rotr32 11 x ^^^ rotr32 25 x

/-- The small-sigma-0 word function of the message schedule. -/
def sigLo (x : Nat) : Nat := rotr32 7 x ^^^ rotr32 18 x ^^^ (x >>> 3)

/-- The small-sigma-1 word function of the message schedule. -/
def sigHi (x : Nat) : Nat := rotr32 17 x ^^^ rotr32 19 x ^^^ (x >>> 10)

/-- The 64 round constants of SHA-256 (decimal). -/
def sha256K : List Nat :=
  [1116352408, 1899447441, 3049323471, 3921009573, 961987163, 1508970993,
   2453635748, 2870763221, 3624381080, 310598401, 607225278, 1426881987,
   1925078388, 2162078206, 2614888103, 3248222580, 3835390401, 4022224774,
   264347078, 604807628, 770255983, 1249150122, 1555081692, 1996064986,
   2554220882, 2821834349, 2952996808, 3210313671, 3336571891, 3584528711,
   113926993, 338241895, 666307205, 773529912, 1294757372, 1396182291,
   1695183700, 1986661051, 2177026350, 2456956037, 2730485921, 2820302411,
   3259730800, 3345764771, 3516065817, 3600352804, 4094571909, 275423344,
   430227734, 506948616, 659060556, 883997877, 958139571, 1322822218,
   1537002063, 1747873779, 1955562222, 2024104815, 2227730452, 2361852424,
   2428436474, 2756734187, 3204031479, 3329325298]

/-- The eight initial hash words of SHA-256 (decimal). -/
def sha256H0 : List Nat :=
  [1779033703, 3144134277, 1013904242, 2773480762,
   1359893119, 2600822924, 528734635, 1541459225]

/-- Merkle–Damgård padding: append `0x80`, zero bytes up to 56 mod 64, then the
original bit length as an 8-byte big-endian integer. -/
def sha256Pad (msg : List Nat) : List Nat :=
  msg ++ [128] ++ List.replicate ((119 - msg.length % 64) % 64) 0
      ++ natToBytesBE 8 (8 * msg.length)

/-- Pack a 64-byte block into sixteen big-endian 32-bit words. -/
def bytesToWords (block : List Nat) : List Nat :=
  (chunksOf 4 block).map (fun b =>
    b.getD 0 0 * 16777216 + b.getD 1 0 * 65536 + b.getD 2 0 * 256 + b.getD 3 0)

/-- Message-schedule expansion from 16 to 64 words. -/
def sha256Schedule (w16 : List Nat) : Array Nat :=
  (List.range 48).foldl
    (fun w _ =>
      let i := w.size
      w.push (w32 (sigHi (w.getD (i - 2) 0) + w.getD (i - 7) 0 +
                   sigLo (w.getD (i - 15) 0) + w.getD (i - 16) 0)))
    w16.toArray

/-- One SHA-256 compression step over a 64-byte block. -/
def sha256Compress (h : List Nat) (block : List Nat) : List Nat :=
  let w := sha256Schedule (bytesToWords block)
  let s := (List.range 64).foldl
    (fun (s : Nat × Nat × Nat × Nat × Nat × Nat × Nat × Nat) i =>
      let (a, b, c, d, e, f, g, hh) := s
      let t1 := w32 (hh + sumE e + shaCh e f g + sha256K.getD i 0 + w.getD i 0)
      let t2 := w32 (sumA a + shaMaj a b c)
      (w32 (t1 + t2), a, b, c, w32 (d + t1), e, f, g))
    (h.getD 0 0, h.getD 1 0, h.getD 2 0, h.getD 3 0,
     h.getD 4 0, h.getD 5 0, h.getD 6 0, h.getD 7 0)
  match s with
  | (a, b, c, d, e, f, g, hh) =>
    [w32 (h.getD 0 0 + a), w32 (h.getD 1 0 + b), w32 (h.getD 2 0 + c),
     w32 (h.getD 3 0 + d), w32 (h.getD 4 0 + e), w32 (h.getD 5 0 + f),
     w32 (h.getD 6 0 + g), w32 (h.getD 7 0 + hh)]

/-- SHA-256 digest (32 bytes) of a byte list. -/
def sha256 (msg : List Nat) : List Nat :=
  ((chunksOf 64 (sha256Pad msg)).foldl sha256Compress sha256H0).flatMap
    (natToBytesBE 4)

/-- HMAC-SHA256 (RFC 2104), as `hmac.new(key, msg, hashlib.sha256).digest()`. -/
def hmacSha256 (key msg : List Nat) : List Nat :=
  let k0 := if 64 < key.length then sha256 key else key
  let k := k0 ++ List.replicate (64 - k0.length) 0
  let ipad := k.map (fun b => b ^^^ 0x36)
  let opad := k.map (fun b => b ^^^ 0x5c)
  sha256 (opad ++ sha256 (ipad ++ msg))

/-! ## Base64 (RFC 4648), as `base64.b64encode` -/

def b64Alphabet : String :=
  "ABCDEFGHIJKLMNOPQRSTUVWXYZabcdefghijklmnopqrstuvwxyz0123456789+/"

def b64Char (n : Nat) : Char := b64Alphabet.data.getD n 'A'

/-- Encode a group of 1 to 3 bytes into 4 base64 characters (with padding). -/
def b64Group : List Nat → List Char
  | [a] => [b64Char (a / 4), b64Char (a % 4 * 16), '=', '=']
  | [a, b] => [b64Char (a / 4), b64Char (a % 4 * 16 + b / 16),
               b64Char (b % 16 * 4), '=']
  | [a, b, c] => [b64Char (a / 4), b64Char (a % 4 * 16 + b / 16),
                  b64Char (b % 16 * 4 + c / 64), b64Char (c % 64)]
  | _ => []

/-- Base64 encoding of a byte list, returned as a string. -/
def base64Encode (bytes : List Nat) : String :=
  String.mk ((chunksOf 3 bytes).flatMap b64Group)

/-! ## Percent-encoding, as `urllib.parse.urlencode` / `quote_plus` -/

def hexDigitUpper (n : Nat) : Char := "0123456789ABCDEF".data.getD n '0'

/-- Bytes that `urllib.parse.quote` never escapes (letters, digits, `_.-~`). -/
def isUrlSafeByte (b : Nat) : Bool :=
  (48 ≤ b && b ≤ 57) || (65 ≤ b && b ≤ 90) || (97 ≤ b && b ≤ 122) ||
  b = 95 || b = 46 || b = 45 || b = 126

/-- Embedding of `urllib.parse.quote_plus` (the default `quote_via` of
`urlencode`): UTF-8 encode, keep safe bytes, map space to `+`, and
percent-encode everything else with uppercase hex. -/
def quotePlus (s : String) : String :=
  String.mk ((strBytes s).flatMap (fun b =>
    if isUrlSafeByte b then [Char.ofNat b]
    else if b = 32 then ['+']
    else ['%', hexDigitUpper (b / 16), hexDigitUpper (b % 16)]))

/-! ## iFlytek adapter: authentication URL (`IflytekSTTStream._build_auth_url`)

The source parses `hosturl` with `urlparse` and formats the current UTC time
as an RFC 1123 date; here `host`, `path` and `date` are passed in as the
already-parsed/formatted values, so the builder is the pure function of those
inputs that the remaining source lines compute. -/

/-- The `signature_origin` string of `_build_auth_url`. -/
def signatureOrigin (host date path : String) : String :=
  "host: " ++ host ++ "\n" ++ "date: " ++ date ++ "\n" ++
  "GET " ++ path ++ " HTTP/1.1"

/-- The base64 signature of `_build_auth_url`:
`base64.b64encode(hmac.new(secret, signature_origin, sha256).digest())`. -/
def authSignature (apiSecret host date path : String) : String :=
  base64Encode (hmacSha256 (strBytes apiSecret)
    (strBytes (signatureOrigin host date path)))

/-- The `authorization_origin` header value of `_build_auth_url`. -/
def authorizationOrigin (apiKey signature : String) : String :=
  "api_key=\"" ++ apiKey ++ "\", algorithm=\"hmac-sha256\", " ++
  "headers=\"host date request-line\", signature=\"" ++ signature ++ "\""

/-- Embedding of `IflytekSTTStream._build_auth_url`: signs the request and
appends `authorization`, `date` and `host` as urlencoded query parameters. -/
def buildAuthUrl (hosturl host path date apiKey apiSecret : String) : String :=
  let signature := authSignature apiSecret host date path
  let authorization := base64Encode (strBytes (authorizationOrigin apiKey signature))
  hosturl ++ "?" ++
    "authorization=" ++ quotePlus authorization ++ "&" ++
    "date=" ++ quotePlus date ++ "&" ++
    "host=" ++ quotePlus host

/-- Modelled from the spec text of §4.2 ("Authentication"): compute the signing
base string `host: {host}` / `date: {date}` / `GET {path} HTTP/1.1` joined by
newlines, HMAC-SHA256 it under the shared secret, base64 the digest, embed it
in the authorization header value, base64 that whole value, and append
`authorization`, `date`, `host` as query parameters to the base endpoint.
Used only to compare against `buildAuthUrl`, which is taken from the source. -/
def specAuthUrlModel (hosturl host path date apiKey apiSecret : String) : String :=
  hosturl ++ "?" ++
    "authorization=" ++
      quotePlus (base64Encode (strBytes
        ("api_key=\"" ++ apiKey ++ "\", algorithm=\"hmac-sha256\", " ++
         "headers=\"host date request-line\", signature=\"" ++
         base64Encode (hmacSha256 (strBytes apiSecret)
           (strBytes ("host: " ++ host ++ "\n" ++ "date: " ++ date ++ "\n" ++
                      "GET " ++ path ++ " HTTP/1.1"))) ++ "\""))) ++ "&" ++
    "date=" ++ quotePlus date ++ "&" ++
    "host=" ++ quotePlus host

/-! ## iFlytek adapter: audio framing (`_sender_worker` and `close`) -/

/-- The constructor parameters of `IflytekSTTStream` that are echoed into the
protocol frames. -/
structure IflyCfg where
  appid : String
  language : String
  accent : String
  ptt : Nat
  rlang : String
  sampleRate : Nat
  deriving DecidableEq, Repr

/-- The `business` block sent in the first frame and in the end frame. -/
structure IflyBusiness where
  domain : String
  language : String
  accent : String
  ptt : Nat
  rlang : String
  deriving DecidableEq, Repr

/-- One JSON frame sent over the WebSocket: `common.app_id` and `business` are
present only when the envelope is included; `data` is always present. -/
structure IflyFrame where
  common : Option String
  business : Option IflyBusiness
  dataStatus : Nat
  dataFormat : String
  dataEncoding : String
  audio : String
  deriving DecidableEq, Repr

def iflyBusinessOf (cfg : IflyCfg) : IflyBusiness :=
  { domain := "iat", language := cfg.language, accent := cfg.accent,
    ptt := cfg.ptt, rlang := cfg.rlang }

def iflyFormatOf (cfg : IflyCfg) : String :=
  "audio/L16;rate=" ++ toString cfg.sampleRate

/-- The first frame of a session (`status = 0`, full envelope). -/
def mkFirstFrame (cfg : IflyCfg) (audioB64 : String) : IflyFrame :=
  { common := some cfg.appid, business := some (iflyBusinessOf cfg),
    dataStatus := 0, dataFormat := iflyFormatOf cfg, dataEncoding := "raw",
    audio := audioB64 }

/-- A middle frame (`status = 1`, data block only). -/
def mkMidFrame (cfg : IflyCfg) (audioB64 : String) : IflyFrame :=
  { common := none, business := none,
    dataStatus := 1, dataFormat := iflyFormatOf cfg, dataEncoding := "raw",
    audio := audioB64 }

/-- The end frame sent by `close()` (`status = 2`, empty audio payload). -/
def closeEndFrame (cfg : IflyCfg) : IflyFrame :=
  { common := some cfg.appid, business := some (iflyBusinessOf cfg),
    dataStatus := 2, dataFormat := iflyFormatOf cfg, dataEncoding := "raw",
    audio := "" }

/-- A sample constructor configuration (the constructor defaults of
`IflytekSTTStream` with a concrete app id), used for concrete evaluations. -/
def cfgExample : IflyCfg :=
  { appid := "app1", language := "zh_cn", accent := "mandarin", ptt := 1,
    rlang := "en_us", sampleRate := 16000 }

/-- A junk default frame for total indexing with `List.getD`. -/
def dummyFrame : IflyFrame :=
  { common := none, business := none, dataStatus := 99,
    dataFormat := "", dataEncoding := "", audio := "" }

/-- The inner send loop of `_sender_worker`: each 1280-byte piece is base64
encoded and wrapped; the first frame ever sent carries the envelope
(`_first_frame_sent` is set after a successful send). Sends are assumed to
succeed (on a send failure the source stops the loop with an error status). -/
def sendPieces (cfg : IflyCfg) : Bool → List (List Nat) → List IflyFrame
  | _, [] => []
  | firstSent, p :: ps =>
    (if firstSent then mkMidFrame cfg (base64Encode p)
     else mkFirstFrame cfg (base64Encode p)) :: sendPieces cfg true ps

/-- All frames produced by `_sender_worker` for a queue of dequeued audio
chunks: every chunk is split into 1280-byte pieces, in FIFO order. -/
def senderFrames (cfg : IflyCfg) (chunks : List (List Nat)) : List IflyFrame :=
  sendPieces cfg false (chunks.flatMap (chunksOf 1280))

/-! ## iFlytek adapter: result parsing and aggregation
(`_on_message`, `_parse_result_text`, `_update_aggregate_text`, `_detect_lang`) -/

/-- A parsed `result` object of an inbound message: `ws` is the word list,
with each entry holding the `w` texts of its `cw` candidate list; `pgs` is the
segmentation policy flag; `rg` is the replacement range (read but unused by
the source). -/
structure IflyResult where
  ws : List (List String)
  pgs : Option String
  rg : List Nat
  deriving DecidableEq, Repr

/-- Embedding of `_parse_result_text`: join the first candidate (`cw[0].w`) of
every non-empty candidate list. -/
def parseResultText (r : IflyResult) : String :=
  String.join (r.ws.filterMap List.head?)

/-- Embedding of `_update_aggregate_text`: `apd` (or absent `pgs`) appends;
`rpl` concatenates and keeps `current + text` in both arms of the doubled
suffix test; any other flag leaves the buffer unchanged. -/
def updateAggregateText (current : String) (r : IflyResult) : String :=
  let text := parseResultText r
  if text = "" then current
  else if r.pgs = some "apd" || r.pgs = none then current ++ text
  else if r.pgs = some "rpl" then
    let candidate := current ++ text
    if pyEndsWith candidate (text ++ text) then current ++ text
    else candidate
  else current

/-- Embedding of `_detect_lang`: any CJK ideograph in U+4E00..U+9FFF makes the
text Chinese, otherwise the constant `en-US` is returned. -/
def detectLang (text : String) : String :=
  if text.data.any (fun ch => 0x4e00 ≤ ch.toNat && ch.toNat ≤ 0x9fff)
  then "zh-CN" else "en-US"

/-- The iFlytek default for the `language` constructor parameter (the
session's configured language). -/
def iflyDefaultLanguage : String := "zh_cn"

/-- The aggregation state mutated by `_on_message`: the accumulated text
buffer `_agg_text` and the last emitted hypothesis `_last_partial`. -/
structure AggState where
  aggText : String
  lastPartialText : String
  deriving DecidableEq, Repr

/-- A transcript event delivered to a callback: `interim` through
`on_partial`, `finalRes` through `on_final`. -/
inductive TEvent where
  | interim (text lang : String)
  | finalRes (text lang : String)
  deriving DecidableEq, Repr

def isFinalEv : TEvent → Bool
  | TEvent.finalRes _ _ => true
  | _ => false

/-- Embedding of `IflytekSTTStream._on_message` for one inbound message with
error code `code`, frame status `statusVal` and optional parsed result.
Returns the new aggregation state and the callback events emitted, in order.
The emission guard of `_handle_partial_result` / `_handle_final_result`
(skip text that is empty after stripping) is included. -/
def onMessage (st : AggState) (code : Nat) (statusVal : Nat)
    (result : Option IflyResult) : AggState × List TEvent :=
  if code ≠ 0 then (st, [])
  else match result with
  | none => (st, [])
  | some r =>
    let text := parseResultText r
    if text = "" then (st, [])
    else
      let lang := detectLang text
      let agg := updateAggregateText st.aggText r
      let currentHyp := if agg = "" then text else agg
      let interimEvs :=
        if currentHyp ≠ st.lastPartialText then
          (if pyStrip currentHyp = "" then [] else [TEvent.interim currentHyp lang])
        else []
      let lastP := if currentHyp ≠ st.lastPartialText then currentHyp
                   else st.lastPartialText
      if statusVal = 2 then
        let finalText := if agg = "" then text else agg
        let finalEvs := if pyStrip finalText = "" then []
                        else [TEvent.finalRes finalText lang]
        ({ aggText := "", lastPartialText := "" }, interimEvs ++ finalEvs)
      else ({ aggText := agg, lastPartialText := lastP }, interimEvs)

/-! ## Base class (`stt_base.py`): statuses, statistics, result handlers -/

/-- The `STTStatus` enumeration. -/
inductive Status where
  | disconnected | connecting | connected | streaming | error | closed
  deriving DecidableEq, Repr

/-- The slice of the `_stats` dictionary that the health check and the result
handlers read or write (timestamps are `Nat` seconds). -/
structure BaseStats where
  lastActivityTime : Option Nat
  totalPartialResults : Nat
  totalFinalResults : Nat
  totalErrors : Nat
  deriving DecidableEq, Repr

/-- One callback invocation (`on_partial` or `on_final`) with its arguments. -/
structure CallbackCall where
  text : String
  lang : String
  deriving DecidableEq, Repr

/-- Python's `language_code or self.language`: an absent or empty language
code falls back to the session default. -/
def langOrDefault (defaultLang : String) : Option String → String
  | none => defaultLang
  | some l => if l = "" then defaultLang else l

/-- Embedding of `STTStreamBase._handle_partial_result`: empty-after-strip
text returns before touching statistics or invoking the callback; otherwise
activity and the interim counter are updated and `on_partial` is invoked. -/
def handlePartialResult (now : Nat) (defaultLang : String) (st : BaseStats)
    (text : String) (langCode : Option String) : BaseStats × Option CallbackCall :=
  if text = "" || pyStrip text = "" then (st, none)
  else
    ({ st with lastActivityTime := some now,
               totalPartialResults := st.totalPartialResults + 1 },
     some { text := text, lang := langOrDefault defaultLang langCode })

/-- Embedding of `STTStreamBase._handle_final_result` (same shape, final
counter, `on_final`). -/
def handleFinalResult (now : Nat) (defaultLang : String) (st : BaseStats)
    (text : String) (langCode : Option String) : BaseStats × Option CallbackCall :=
  if text = "" || pyStrip text = "" then (st, none)
  else
    ({ st with lastActivityTime := some now,
               totalFinalResults := st.totalFinalResults + 1 },
     some { text := text, lang := langOrDefault defaultLang langCode })

/-- True when the optional callback argument is absent or carries text that is
non-empty after stripping.  Used to state that delivered callbacks never see
blank text. -/
def callTextNonBlank : Option CallbackCall → Bool
  | none => true
  | some c => !(pyStrip c.text == "")

/-- Embedding of `STTStreamBase.is_healthy`: unhealthy statuses, the two-minute
idle bound, and the 50% error-rate bound once more than ten results arrived. -/
def baseIsHealthy (now : Nat) (status : Status) (st : BaseStats) : Bool :=
  if status = Status.disconnected || status = Status.error ||
     status = Status.closed then false
  else
    let idleOk := match st.lastActivityTime with
      | some la => !(decide (120 < now - la))
      | none => true
    if !idleOk then false
    else
      let total := st.totalPartialResults + st.totalFinalResults
      if 10 < total then !(decide (total < 2 * st.totalErrors)) else true

/-! ## Google adapter health (`asr.py`: `_handle_transcript`,
`_check_stream_health`, `is_healthy`) -/

/-- The per-stream fields of `GoogleSTTStream` read by the transcript health
logic. -/
structure GHealth where
  lastResponseTime : Nat
  lastTranscript : String
  lastFinalTranscript : String
  repeatCount : Nat
  consecutiveEmptyCount : Nat
  deriving DecidableEq, Repr

/-- The initial values set in `GoogleSTTStream.__init__` (the construction
time is taken as 0). -/
def gHealthInit : GHealth :=
  { lastResponseTime := 0, lastTranscript := "", lastFinalTranscript := "",
    repeatCount := 0, consecutiveEmptyCount := 0 }

/-- Embedding of `_check_stream_health` with thresholds
`_response_timeout = 45`, `_max_empty_threshold = 10`,
`_max_repeat_threshold = 10`, `_min_transcript_length = 3`. -/
def checkStreamHealth (now : Nat) (st : GHealth) : Bool :=
  if 45 < now - st.lastResponseTime then false
  else if 10 ≤ st.consecutiveEmptyCount then false
  else if 10 ≤ st.repeatCount && 3 ≤ st.lastTranscript.length then false
  else true

/-- Embedding of `_handle_transcript`: refresh the response time; an
empty-after-strip text bumps the empty streak and resets the repeat counter;
otherwise the empty streak resets and the text is compared against the last
text of the same kind (final vs. interim); an identical final is accepted
immediately (returning `true` before the health check); the return value is
the outcome of `_check_stream_health`. -/
def handleTranscript (now : Nat) (st : GHealth) (text : String)
    (isFinal : Bool) : Bool × GHealth :=
  let st := { st with lastResponseTime := now }
  if text = "" || pyStrip text = "" then
    let st := { st with consecutiveEmptyCount := st.consecutiveEmptyCount + 1,
                        repeatCount := 0 }
    (checkStreamHealth now st, st)
  else
    let st := { st with consecutiveEmptyCount := 0 }
    let comparison := if isFinal then st.lastFinalTranscript else st.lastTranscript
    let st := if isFinal then { st with lastFinalTranscript := text }
              else { st with lastTranscript := text }
    if text = comparison then
      let st := { st with repeatCount := st.repeatCount + 1 }
      if isFinal then (true, st)
      else (checkStreamHealth now st, st)
    else
      let st := { st with repeatCount := 0 }
      (checkStreamHealth now st, st)

/-- Embedding of `GoogleSTTStream.is_healthy`: the base health check, plus
`not self._closed and self._check_stream_health()`. -/
def googleIsHealthy (now : Nat) (status : Status) (bs : BaseStats)
    (closedFlag : Bool) (h : GHealth) : Bool :=
  baseIsHealthy now status bs && (!closedFlag && checkStreamHealth now h)

/-- One interim report processed by `_result_worker` through
`_handle_transcript` (the state effect only). -/
def interimStep (now : Nat) (t : String) (st : GHealth) : GHealth :=
  (handleTranscript now st t false).2

/-- `n` consecutive identical interim reports of the text `t`. -/
def reportRun (now : Nat) (t : String) : Nat → GHealth → GHealth
  | 0, st => st
  | n + 1, st => reportRun now t n (interimStep now t st)

/-- Whether `_result_worker` reaches `on_final` for a final transcript:
`_handle_transcript` must return `true` and the base handler must see
non-blank text. -/
def googleFinalEmitted (now : Nat) (st : GHealth) (text : String) : Bool :=
  (handleTranscript now st text true).1 && !(pyStrip text == "")

/-! ## Deepgram adapter health (`deepgram_asr.py`: `_health_check_transcript`) -/

/-- The repeat-tracking fields of `DeepgramSTTStream` (`_max_repeats = 3`). -/
structure DgHealth where
  repeatCount : Nat
  lastText : String
  deriving DecidableEq, Repr

/-- Embedding of `_health_check_transcript`: a final result always resets the
counter and is accepted; an interim identical to the last text is rejected
once the counter exceeds 3. -/
def dgHealthCheckTranscript (st : DgHealth) (text : String)
    (isFinal : Bool) : Bool × DgHealth :=
  if isFinal then (true, { st with repeatCount := 0, lastText := text })
  else if text = st.lastText then
    let st := { st with repeatCount := st.repeatCount + 1 }
    if 3 < st.repeatCount then (false, st) else (true, st)
  else (true, { st with repeatCount := 0, lastText := text })

/-! ## Lifecycle state machines

Each adapter's session is modelled by the fields that its `connect` / `push` /
`close` methods and its transport-event handlers mutate, with each status
assignment of the source a separate step.  Audio queues hold `Option` chunks
(`none` is the end-of-stream sentinel the sources enqueue on close). -/

/-- `GoogleSTTStream` lifecycle state (`asr.py`). -/
structure GSession where
  status : Status
  closedFlag : Bool
  queue : List (Option (List Nat))
  bytesSent : Nat
  deriving DecidableEq, Repr

/-- State after `GoogleSTTStream.__init__`. -/
def gInit : GSession :=
  { status := Status.disconnected, closedFlag := false, queue := [],
    bytesSent := 0 }

/-- Embedding of `GoogleSTTStream.push`: rejected once `_closed`; a full
audio queue (maxsize 100) drops the chunk; otherwise the chunk is enqueued,
the byte counter grows, and the status becomes `streaming`. -/
def googlePush (st : GSession) (d : List Nat) : Bool × GSession :=
  if st.closedFlag then (false, st)
  else if 100 ≤ st.queue.length then (false, st)
  else (true, { st with queue := st.queue ++ [some d],
                        bytesSent := st.bytesSent + d.length,
                        status := Status.streaming })

/-- Embedding of `GoogleSTTStream.close`: a second call returns at the
`_closed` guard; the first call sets `_closed`, sets the status, posts the
sentinel, joins the workers and drains the queues (so the queue ends empty). -/
def googleClose (st : GSession) : GSession :=
  if st.closedFlag then st
  else { st with closedFlag := true, status := Status.closed, queue := [] }

/-- The status-changing events of `GoogleSTTStream`: the two phases of
`connect()` (which never resets `_closed`), `push`, `close`, and a severe
`_handle_error` (a connection/timeout error message sets `ERROR`). -/
inductive GOp where
  | connectStart | connectOk | connectFail
  | push (d : List Nat)
  | close
  | severeError
  deriving Repr

def gStep (st : GSession) : GOp → GSession
  | GOp.connectStart => { st with status := Status.connecting }
  | GOp.connectOk =>
    if st.status = Status.connecting then { st with status := Status.connected }
    else st
  | GOp.connectFail =>
    if st.status = Status.connecting then { st with status := Status.error }
    else st
  | GOp.push d => (googlePush st d).2
  | GOp.close => googleClose st
  | GOp.severeError => { st with status := Status.error }

/-- The states a `GoogleSTTStream` can reach from construction. -/
inductive GReachable : GSession → Prop where
  | init : GReachable gInit
  | step : ∀ {st} (op : GOp), GReachable st → GReachable (gStep st op)

/-- `IflytekSTTStream` lifecycle state (`iflytek_asr.py`). -/
structure ISession where
  status : Status
  closedFlag : Bool
  firstFrameSent : Bool
  queue : List (Option (List Nat))
  bytesSentTotal : Nat
  deriving DecidableEq, Repr

/-- State after `IflytekSTTStream.__init__`. -/
def iInit : ISession :=
  { status := Status.disconnected, closedFlag := false,
    firstFrameSent := false, queue := [], bytesSentTotal := 0 }

/-- Embedding of `IflytekSTTStream.push`: empty audio or a closed session is
rejected; a full queue (maxsize 100) drops the chunk before any status
change; otherwise the chunk is enqueued and the status becomes `streaming`. -/
def iflytekPush (st : ISession) (d : List Nat) : Bool × ISession :=
  if d = [] || st.closedFlag then (false, st)
  else if 100 ≤ st.queue.length then (false, st)
  else (true, { st with queue := st.queue ++ [some d],
                        status := Status.streaming,
                        bytesSentTotal := st.bytesSentTotal + d.length })

/-- Embedding of `IflytekSTTStream.close`: a second call returns at the
`_closed` guard; the first call marks the session closed, sends the `status=2`
end frame, posts the `None` sentinel and finally sets the status. -/
def iflytekClose (st : ISession) : ISession :=
  if st.closedFlag then st
  else { st with closedFlag := true, status := Status.closed,
                 queue := st.queue ++ [none] }

/-- The status-changing events of `IflytekSTTStream`: `connect()` (whose
first lines reset `_closed` and `_first_frame_sent`), the wait outcome,
`push`, `close`, and the WebSocket close/error handlers. -/
inductive IOp where
  | connectStart | connectOk | connectFail
  | push (d : List Nat)
  | close
  | wsCloseEvt | wsErrorEvt
  deriving Repr

def iStep (st : ISession) : IOp → ISession
  | IOp.connectStart => { st with status := Status.connecting,
                                  closedFlag := false, firstFrameSent := false }
  | IOp.connectOk =>
    if st.status = Status.connecting then { st with status := Status.connected }
    else st
  | IOp.connectFail =>
    if st.status = Status.connecting then { st with status := Status.error }
    else st
  | IOp.push d => (iflytekPush st d).2
  | IOp.close => iflytekClose st
  | IOp.wsCloseEvt => if st.closedFlag then st
                      else { st with status := Status.error }
  | IOp.wsErrorEvt => { st with status := Status.error }

/-- The states an `IflytekSTTStream` can reach from construction. -/
inductive IReachable : ISession → Prop where
  | init : IReachable iInit
  | step : ∀ {st} (op : IOp), IReachable st → IReachable (iStep st op)

/-- `DeepgramSTTStream` lifecycle state (`deepgram_asr.py`).  The audio queue
is unbounded (`queue.Queue()` with no maxsize). -/
structure DgSession where
  status : Status
  shouldStop : Bool
  hasConnection : Bool
  reconnectAttempts : Nat
  queue : List (List Nat)
  deriving DecidableEq, Repr

/-- State after `DeepgramSTTStream.__init__`. -/
def dgInit : DgSession :=
  { status := Status.disconnected, shouldStop := false, hasConnection := false,
    reconnectAttempts := 0, queue := [] }

/-- Embedding of `DeepgramSTTStream.push`: empty audio returns `true`; only an
`ERROR` status triggers `_reconnect` (bounded by 5 attempts; `connectOk` is
the outcome of the nested `connect()`); any other status — `Closed`
included — enqueues into the unbounded queue, sets `streaming`, and returns
`true`. -/
def deepgramPush (connectOk : Bool) (st : DgSession) (d : List Nat) :
    Bool × DgSession :=
  if d = [] then (true, st)
  else if st.status = Status.error then
    if 5 ≤ st.reconnectAttempts then (false, st)
    else
      let st := { st with reconnectAttempts := st.reconnectAttempts + 1 }
      if connectOk then
        let st := { st with status := Status.connected, hasConnection := true,
                            reconnectAttempts := 0 }
        (true, { st with queue := st.queue ++ [d], status := Status.streaming })
      else (false, { st with status := Status.error })
  else (true, { st with queue := st.queue ++ [d], status := Status.streaming })

/-- Embedding of `DeepgramSTTStream.close`: unconditionally stop the loop,
finish and drop the connection, and set the status (no `_closed` guard). -/
def deepgramClose (st : DgSession) : DgSession :=
  { st with shouldStop := true, hasConnection := false,
            status := Status.closed }

/-- The status-changing events of `DeepgramSTTStream`: `connect()` and its
outcome, `push` (with the nested reconnect outcome), `close`, the socket
close handler (`_on_close` moves every non-closed session to
`DISCONNECTED`), and a severe `_handle_error`. -/
inductive DgOp where
  | connectStart | connectOk | connectFail
  | push (connectOk : Bool) (d : List Nat)
  | close
  | onCloseEvt | severeError
  deriving Repr

def dgStep (st : DgSession) : DgOp → DgSession
  | DgOp.connectStart => { st with status := Status.connecting,
                                   shouldStop := false }
  | DgOp.connectOk =>
    if st.status = Status.connecting then
      { st with status := Status.connected, hasConnection := true,
                reconnectAttempts := 0 }
    else st
  | DgOp.connectFail =>
    if st.status = Status.connecting then { st with status := Status.error }
    else st
  | DgOp.push ok d => (deepgramPush ok st d).2
  | DgOp.close => deepgramClose st
  | DgOp.onCloseEvt =>
    if st.status = Status.closed then st
    else { st with status := Status.disconnected }
  | DgOp.severeError => { st with status := Status.error }

/-- The states a `DeepgramSTTStream` can reach from construction. -/
inductive DgReachable : DgSession → Prop where
  | init : DgReachable dgInit
  | step : ∀ {st} (op : DgOp), DgReachable st → DgReachable (dgStep st op)

/-- A Google session closed right after construction. -/
def gClosedState : GSession := gStep gInit GOp.close

/-- An iFlytek session closed right after construction. -/
def iClosedState : ISession := iStep iInit IOp.close

/-- A Deepgram session that connected successfully and was then closed. -/
def dgClosedState : DgSession :=
  dgStep (dgStep (dgStep dgInit DgOp.connectStart) DgOp.connectOk) DgOp.close

/-! ## Helper lemmas -/

theorem chunksOfF_flatten {α : Type _} :
    ∀ (fuel n : Nat) (l : List α), l.length ≤ fuel → n ≠ 0 →
      (chunksOfF fuel n l).flatten = l := by
  intro fuel
  induction fuel with
  | zero =>
    intro n l hl _
    have : l = [] := List.length_eq_zero.mp (Nat.le_zero.mp hl)
    subst this
    rfl
  | succ fuel ih =>
    intro n l hl hn
    match l with
    | [] => rfl
    | a :: t =>
      rw [chunksOfF, if_neg hn, List.flatten_cons,
        ih n ((a :: t).drop n)
          (by simp only [List.length_drop, List.length_cons] at hl ⊢; omega) hn,
        List.take_append_drop]

theorem chunksOf_flatten {α : Type _} (n : Nat) (hn : n ≠ 0) (l : List α) :
    (chunksOf n l).flatten = l :=
  chunksOfF_flatten l.length n l le_rfl hn

theorem chunksOfF_mem_len {α : Type _} :
    ∀ (fuel n : Nat) (l : List α) (p : List α), p ∈ chunksOfF fuel n l →
      p.length ≤ n := by
  intro fuel
  induction fuel with
  | zero => intro n l p hp; simp [chunksOfF] at hp
  | succ fuel ih =>
    intro n l p hp
    match l with
    | [] => simp [chunksOfF] at hp
    | a :: t =>
      rw [chunksOfF] at hp
      by_cases hn : n = 0
      · rw [if_pos hn] at hp; simp at hp
      · rw [if_neg hn] at hp
        rcases List.mem_cons.mp hp with h | h
        · subst h; simp [List.length_take]
        · exact ih n _ p h

theorem chunksOf_mem_len {α : Type _} (n : Nat) (l p : List α)
    (hp : p ∈ chunksOf n l) : p.length ≤ n :=
  chunksOfF_mem_len l.length n l p hp

theorem sendPieces_true_eq (cfg : IflyCfg) (ps : List (List Nat)) :
    sendPieces cfg true ps = ps.map (fun p => mkMidFrame cfg (base64Encode p)) := by
  induction ps with
  | nil => rfl
  | cons p ps ih => simp [sendPieces, ih]

theorem sendPieces_len (cfg : IflyCfg) :
    ∀ (b : Bool) (ps : List (List Nat)), (sendPieces cfg b ps).length = ps.length := by
  intro b ps
  induction ps generalizing b with
  | nil => rfl
  | cons p ps ih => simp [sendPieces, ih]

theorem getD_map_lt {α β : Type _} (f : α → β) (d : β) (e : α) :
    ∀ (l : List α) (j : Nat), j < l.length →
      (l.map f).getD j d = f (l.getD j e) := by
  intro l
  induction l with
  | nil => intro j hj; simp at hj
  | cons a t ih =>
    intro j hj
    match j with
    | 0 => rfl
    | j + 1 =>
      simp only [List.map_cons, List.getD_cons_succ]
      exact ih j (by simpa using hj)

theorem senderFrames_getD (cfg : IflyCfg) (chunks : List (List Nat)) (i : Nat)
    (hi : i < (chunks.flatMap (chunksOf 1280)).length) :
    (senderFrames cfg chunks).getD i dummyFrame =
      (if i = 0 then mkFirstFrame cfg else mkMidFrame cfg)
        (base64Encode ((chunks.flatMap (chunksOf 1280)).getD i [])) := by
  unfold senderFrames
  generalize hps : chunks.flatMap (chunksOf 1280) = ps at hi ⊢
  match ps with
  | [] => simp at hi
  | p :: ps =>
    match i with
    | 0 => simp [sendPieces]
    | i + 1 =>
      simp only [sendPieces, List.getD_cons_succ, sendPieces_true_eq,
        Nat.succ_ne_zero, if_neg]
      exact getD_map_lt _ dummyFrame [] ps i (by simpa using hi)

theorem gReachable_closed_flag {st : GSession} (h : GReachable st) :
    st.status = Status.closed → st.closedFlag = true := by
  induction h with
  | init => intro hc; simp [gInit] at hc
  | step op _ ih =>
    cases op with
    | connectStart => intro hc; simp [gStep] at hc
    | connectOk =>
      simp only [gStep]
      split
      · intro hc; simp at hc
      · exact ih
    | connectFail =>
      simp only [gStep]
      split
      · intro hc; simp at hc
      · exact ih
    | push d =>
      simp only [gStep, googlePush]
      split
      · exact ih
      · split
        · exact ih
        · intro hc; simp at hc
    | close =>
      simp only [gStep, googleClose]
      split
      · exact ih
      · intro _; rfl
    | severeError => intro hc; simp [gStep] at hc

theorem iReachable_closed_flag {st : ISession} (h : IReachable st) :
    st.status = Status.closed → st.closedFlag = true := by
  induction h with
  | init => intro hc; simp [iInit] at hc
  | step op _ ih =>
    cases op with
    | connectStart => intro hc; simp [iStep] at hc
    | connectOk =>
      simp only [iStep]
      split
      · intro hc; simp at hc
      · exact ih
    | connectFail =>
      simp only [iStep]
      split
      · intro hc; simp at hc
      · exact ih
    | push d =>
      simp only [iStep, iflytekPush]
      split
      · exact ih
      · split
        · exact ih
        · intro hc; simp at hc
    | close =>
      simp only [iStep, iflytekClose]
      split
      · exact ih
      · intro _; rfl
    | wsCloseEvt =>
      simp only [iStep]
      split
      · exact ih
      · intro hc; simp at hc
    | wsErrorEvt => intro hc; simp [iStep] at hc

theorem pyStrip_ne_empty {t : String} (h : pyStrip t ≠ "") : t ≠ "" := by
  intro he
  subst he
  exact h rfl

theorem interimStep_fresh (now : Nat) (t : String) (st : GHealth)
    (hstrip : pyStrip t ≠ "") (hne : st.lastTranscript ≠ t) :
    interimStep now t st =
      { lastResponseTime := now, lastTranscript := t,
        lastFinalTranscript := st.lastFinalTranscript,
        repeatCount := 0, consecutiveEmptyCount := 0 } := by
  have ht : t ≠ "" := pyStrip_ne_empty hstrip
  simp [interimStep, handleTranscript, ht, hstrip, Ne.symm hne]

theorem interimStep_locked (now : Nat) (t lf : String) (lrt rc ec : Nat)
    (hstrip : pyStrip t ≠ "") :
    interimStep now t
        { lastResponseTime := lrt, lastTranscript := t, lastFinalTranscript := lf,
          repeatCount := rc, consecutiveEmptyCount := ec } =
      { lastResponseTime := now, lastTranscript := t, lastFinalTranscript := lf,
        repeatCount := rc + 1, consecutiveEmptyCount := 0 } := by
  have ht : t ≠ "" := pyStrip_ne_empty hstrip
  simp [interimStep, handleTranscript, ht, hstrip]

theorem reportRun_locked (now : Nat) (t lf : String) (hstrip : pyStrip t ≠ "") :
    ∀ (n rc : Nat),
      reportRun now t n
          { lastResponseTime := now, lastTranscript := t,
            lastFinalTranscript := lf, repeatCount := rc,
            consecutiveEmptyCount := 0 } =
        { lastResponseTime := now, lastTranscript := t, lastFinalTranscript := lf,
          repeatCount := rc + n, consecutiveEmptyCount := 0 } := by
  intro n
  induction n with
  | zero => intro rc; rfl
  | succ n ih =>
    intro rc
    show reportRun now t n (interimStep now t _) = _
    rw [interimStep_locked now t lf now rc 0 hstrip, ih (rc + 1)]
    congr 1
    omega

theorem reportRun_fresh (now n : Nat) (t : String) (st : GHealth)
    (hstrip : pyStrip t ≠ "") (hne : st.lastTranscript ≠ t) (hn : 1 ≤ n) :
    reportRun now t n st =
      { lastResponseTime := now, lastTranscript := t,
        lastFinalTranscript := st.lastFinalTranscript,
        repeatCount := n - 1, consecutiveEmptyCount := 0 } := by
  match n, hn with
  | m + 1, _ =>
    show reportRun now t m (interimStep now t st) = _
    rw [interimStep_fresh now t st hstrip hne,
      reportRun_locked now t st.lastFinalTranscript hstrip m 0]
    simp

/-! ## Claim C1 -/

/-- Claim C1, counterexample: the text `"abc"` (non-empty, length 3 ≥ 3) is
reported exactly N = 10 times consecutively to a freshly constructed Google
stream — N is at the repeat threshold — yet `is_healthy()` still returns
`true`, because the repeat counter is only 9 after 10 identical reports. -/
theorem claim1_ten_reports_still_healthy :
    pyStrip "abc" ≠ "" ∧ 3 ≤ "abc".length ∧ 10 ≤ (10 : Nat) ∧
    googleIsHealthy 0 Status.streaming
      { lastActivityTime := some 0, totalPartialResults := 10,
        totalFinalResults := 0, totalErrors := 0 } false
      (reportRun 0 "abc" 10 gHealthInit) = true := by
  refine ⟨by decide, by decide, le_rfl, by decide⟩

/-- Claim C1, amended: reporting the same non-blank text of length ≥ 3 at
least 11 times consecutively (so that the repeat counter reaches the
threshold 10) makes `is_healthy()` false, and a final result equal to the
previous final text is still accepted by `_handle_transcript` and delivered
to `on_final` (and Deepgram's `_health_check_transcript` accepts every final
as well). -/
theorem claim1_repeat_threshold (st : GHealth) (t : String) (n now : Nat)
    (status : Status) (bs : BaseStats) (closedFlag : Bool)
    (st2 : GHealth) (u : String) (now2 : Nat) (dst : DgHealth)
    (h1 : st.lastTranscript ≠ t) (h2 : pyStrip t ≠ "") (h3 : 3 ≤ t.length)
    (h4 : 11 ≤ n) (h5 : u = st2.lastFinalTranscript) (h6 : pyStrip u ≠ "") :
    checkStreamHealth now (reportRun now t n st) = false ∧
    googleIsHealthy now status bs closedFlag (reportRun now t n st) = false ∧
    googleFinalEmitted now2 st2 u = true ∧
    (dgHealthCheckTranscript dst u true).1 = true := by
  have hrun := reportRun_fresh now n t st h2 h1 (by omega)
  have hcheck : checkStreamHealth now (reportRun now t n st) = false := by
    rw [hrun]
    have hrc : 10 ≤ n - 1 := by omega
    simp [checkStreamHealth, hrc, h3]
  refine ⟨hcheck, ?_, ?_, ?_⟩
  · simp [googleIsHealthy, hcheck]
  · subst h5
    have hu : st2.lastFinalTranscript ≠ "" := pyStrip_ne_empty h6
    simp [googleFinalEmitted, handleTranscript, hu, h6]
  · simp [dgHealthCheckTranscript]

/-- Claim C1 witness: a concrete 11-report run on the initial Google stream
state turns health off, and a concrete repeated final is still emitted. -/
theorem claim1_repeat_threshold_app :
    checkStreamHealth 5 (reportRun 5 "abc" 11 gHealthInit) = false ∧
    googleIsHealthy 5 Status.streaming
      { lastActivityTime := some 5, totalPartialResults := 11,
        totalFinalResults := 0, totalErrors := 0 } false
      (reportRun 5 "abc" 11 gHealthInit) = false ∧
    googleFinalEmitted 9
      { lastResponseTime := 0, lastTranscript := "x",
        lastFinalTranscript := "same text", repeatCount := 0,
        consecutiveEmptyCount := 0 } "same text" = true ∧
    (dgHealthCheckTranscript { repeatCount := 7, lastText := "same text" }
      "same text" true).1 = true :=
  claim1_repeat_threshold gHealthInit "abc" 11 5 Status.streaming
    { lastActivityTime := some 5, totalPartialResults := 11,
      totalFinalResults := 0, totalErrors := 0 } false
    { lastResponseTime := 0, lastTranscript := "x",
      lastFinalTranscript := "same text", repeatCount := 0,
      consecutiveEmptyCount := 0 } "same text" 9
    { repeatCount := 7, lastText := "same text" }
    (by decide) (by decide) (by decide) (by decide) rfl (by decide)

/-! ## Claim C2 -/

set_option maxRecDepth 200000

/-- Claim C2: `_build_auth_url` assembles exactly the construction the spec
describes — the three-line signing base string, HMAC-SHA256 under the shared
secret, base64 of the digest, base64 of the full authorization header value,
and `authorization`/`date`/`host` appended as query parameters — it is a
pure function of host, path, date and the secrets (so repeated calls with
fixed inputs agree), and on the Scenario D inputs with secret `"secret"` it
produces the expected HMAC-SHA256/base64 signature. -/
theorem claim2_auth_url_construction
    (hosturl host path date apiKey apiSecret : String) :
    buildAuthUrl hosturl host path date apiKey apiSecret =
      specAuthUrlModel hosturl host path date apiKey apiSecret ∧
    authSignature apiSecret host date path =
      authSignature apiSecret host date path ∧
    authSignature "secret" "example.com" "Fri, 01 Jan 2021 00:00:00 GMT"
      "/v2/iat" = "fLecXtgs36qogXeYeAog7aCUyts3vYREwohRzHJfkpM=" :=
  ⟨rfl, rfl, by decide⟩

/-! ## Claim C7 -/

/-- Claim C7 (code bug): with current buffer `"ab"` and an `rpl` result whose
new text is `"b"`, the plain concatenation `"abb"` ends with the doubled
suffix `"b" ++ "b"`, the dead dedup branch fires, and yet
`_update_aggregate_text` still returns `"abb"` (both arms return
`current + text`), so the returned buffer does end with the doubled text. -/
theorem claim7_rpl_dedup_dead :
    updateAggregateText "ab" { ws := [["b"]], pgs := some "rpl", rg := [1, 1] }
      = "abb" ∧
    pyEndsWith ("ab" ++ "b") ("b" ++ "b") = true ∧
    pyEndsWith "abb" ("b" ++ "b") = true := by
  refine ⟨by decide, by decide, by decide⟩

/-! ## Claim C8 -/

/-- Claim C8, counterexample: the session's configured language defaults to
`"zh_cn"`, the text `"hello"` contains no CJK ideograph, and `_detect_lang`
tags it `"en-US"` — not the session's configured language. -/
theorem claim8_non_cjk_not_session_language :
    iflyDefaultLanguage = "zh_cn" ∧
    ("hello".data.any
      (fun ch => 0x4e00 ≤ ch.toNat && ch.toNat ≤ 0x9fff)) = false ∧
    detectLang "hello" = "en-US" ∧
    detectLang "hello" ≠ iflyDefaultLanguage := by
  refine ⟨rfl, by decide, by decide, by decide⟩

/-- Claim C8, amended: the language tag is determined purely by
character-class detection — `"zh-CN"` exactly when the text contains a CJK
ideograph in U+4E00..U+9FFF, and the fixed constant `"en-US"` (not the
session's configured language) otherwise. -/
theorem claim8_detect_lang (t : String) :
    (detectLang t = "zh-CN" ↔
      ∃ c ∈ t.data, 0x4e00 ≤ c.toNat ∧ c.toNat ≤ 0x9fff) ∧
    (detectLang t = "zh-CN" ∨ detectLang t = "en-US") := by
  unfold detectLang
  by_cases h : (t.data.any (fun ch => 0x4e00 ≤ ch.toNat && ch.toNat ≤ 0x9fff))
      = true
  · rw [if_pos h]
    refine ⟨⟨fun _ => ?_, fun _ => rfl⟩, Or.inl rfl⟩
    obtain ⟨c, hc, hp⟩ := List.any_eq_true.mp h
    exact ⟨c, hc, by simpa using hp⟩
  · rw [if_neg h]
    refine ⟨⟨fun he => absurd he (by decide), fun he => ?_⟩, Or.inr rfl⟩
    obtain ⟨c, hc, hp⟩ := he
    exact absurd (List.any_eq_true.mpr ⟨c, hc, by simpa using hp⟩) h

/-! ## Claim C9 -/

/-- Claim C9: for each adapter, `close()` is idempotent — a second call on the
already-closed session leaves the state (status, flags, queue, statistics)
exactly as the first call left it. -/
theorem claim9_close_idempotent :
    (∀ st : GSession, googleClose (googleClose st) = googleClose st) ∧
    (∀ st : ISession, iflytekClose (iflytekClose st) = iflytekClose st) ∧
    (∀ st : DgSession, deepgramClose (deepgramClose st) = deepgramClose st) := by
  refine ⟨fun st => ?_, fun st => ?_, fun st => rfl⟩
  · by_cases h : st.closedFlag = true
    · simp [googleClose, h]
    · simp [googleClose, h]
  · by_cases h : st.closedFlag = true
    · simp [iflytekClose, h]
    · simp [iflytekClose, h]

/-! ## Claim C10 -/

/-- Claim C10: the shared result handlers return `(st, none)` — no statistics
update, no callback — whenever the text is empty after stripping, and
consequently every callback invocation they produce carries text that is
non-empty after stripping. -/
theorem claim10_no_blank_callbacks (now now2 : Nat) (dl dl2 : String)
    (st st2 : BaseStats) (text text2 : String) (lc lc2 : Option String)
    (h : pyStrip text = "") :
    handlePartialResult now dl st text lc = (st, none) ∧
    handleFinalResult now dl st text lc = (st, none) ∧
    callTextNonBlank (handlePartialResult now2 dl2 st2 text2 lc2).2 = true ∧
    callTextNonBlank (handleFinalResult now2 dl2 st2 text2 lc2).2 = true := by
  refine ⟨?_, ?_, ?_, ?_⟩
  · simp [handlePartialResult, h]
  · simp [handleFinalResult, h]
  · by_cases h2 : pyStrip text2 = ""
    · simp [handlePartialResult, h2, callTextNonBlank]
    · have ht : text2 ≠ "" := pyStrip_ne_empty h2
      simp [handlePartialResult, h2, ht, callTextNonBlank]
  · by_cases h2 : pyStrip text2 = ""
    · simp [handleFinalResult, h2, callTextNonBlank]
    · have ht : text2 ≠ "" := pyStrip_ne_empty h2
      simp [handleFinalResult, h2, ht, callTextNonBlank]

/-- Claim C10 witness: a whitespace-only text is dropped without touching the
statistics, and a concrete non-blank text yields a non-blank callback. -/
theorem claim10_no_blank_callbacks_app :
    handlePartialResult 4 "en-US"
      { lastActivityTime := some 3, totalPartialResults := 1,
        totalFinalResults := 2, totalErrors := 3 } "  " none =
      ({ lastActivityTime := some 3, totalPartialResults := 1,
         totalFinalResults := 2, totalErrors := 3 }, none) ∧
    handleFinalResult 4 "en-US"
      { lastActivityTime := some 3, totalPartialResults := 1,
        totalFinalResults := 2, totalErrors := 3 } "  " none =
      ({ lastActivityTime := some 3, totalPartialResults := 1,
         totalFinalResults := 2, totalErrors := 3 }, none) ∧
    callTextNonBlank (handlePartialResult 8 "zh-CN"
      { lastActivityTime := none, totalPartialResults := 0,
        totalFinalResults := 0, totalErrors := 0 } "hi" (some "en-US")).2
      = true ∧
    callTextNonBlank (handleFinalResult 8 "zh-CN"
      { lastActivityTime := none, totalPartialResults := 0,
        totalFinalResults := 0, totalErrors := 0 } "hi" (some "en-US")).2
      = true :=
  claim10_no_blank_callbacks 4 8 "en-US" "zh-CN"
    { lastActivityTime := some 3, totalPartialResults := 1,
      totalFinalResults := 2, totalErrors := 3 }
    { lastActivityTime := none, totalPartialResults := 0,
      totalFinalResults := 0, totalErrors := 0 } "  " "hi" none (some "en-US")
    (by decide)

/-! ## Claim C3 -/

/-- Claim C3: every frame produced by `_sender_worker` wraps one base64
encoded piece of at most 1280 bytes (the pieces of each chunk reassemble the
chunk exactly), the very first frame carries the full envelope
(`common.app_id` and the business block) with `data.status = 0`, every later
audio frame carries only the data block with `data.status = 1`, and the frame
sent on close carries `data.status = 2` with an empty audio payload. -/
theorem claim3_first_middle_end_frames (cfg : IflyCfg)
    (chunks : List (List Nat)) (i : Nat) (c piece : List Nat)
    (hi : i < (chunks.flatMap (chunksOf 1280)).length)
    (_hc : c ∈ chunks) (hp : piece ∈ chunksOf 1280 c) :
    ((senderFrames cfg chunks).getD i dummyFrame).dataStatus
      = (if i = 0 then 0 else 1) ∧
    ((senderFrames cfg chunks).getD i dummyFrame).common
      = (if i = 0 then some cfg.appid else none) ∧
    ((senderFrames cfg chunks).getD i dummyFrame).business
      = (if i = 0 then some (iflyBusinessOf cfg) else none) ∧
    ((senderFrames cfg chunks).getD i dummyFrame).audio
      = base64Encode ((chunks.flatMap (chunksOf 1280)).getD i []) ∧
    (chunksOf 1280 c).flatten = c ∧
    piece.length ≤ 1280 ∧
    (closeEndFrame cfg).dataStatus = 2 ∧ (closeEndFrame cfg).audio = "" := by
  have hg := senderFrames_getD cfg chunks i hi
  refine ⟨?_, ?_, ?_, ?_, chunksOf_flatten 1280 (by norm_num) c,
    chunksOf_mem_len 1280 c piece hp, rfl, rfl⟩ <;>
    rw [hg] <;> by_cases h0 : i = 0 <;>
      simp [h0, mkFirstFrame, mkMidFrame]

/-- Claim C3 witness: on the chunk queue `[[1,2,3],[4,5]]` the second frame is
a data-only `status = 1` frame carrying base64 of `[4,5]`. -/
theorem claim3_first_middle_end_frames_app :
    ((senderFrames cfgExample [[1, 2, 3], [4, 5]]).getD 1 dummyFrame).dataStatus
      = (if 1 = 0 then 0 else 1) ∧
    ((senderFrames cfgExample [[1, 2, 3], [4, 5]]).getD 1 dummyFrame).common
      = (if 1 = 0 then some cfgExample.appid else none) ∧
    ((senderFrames cfgExample [[1, 2, 3], [4, 5]]).getD 1 dummyFrame).business
      = (if 1 = 0 then some (iflyBusinessOf cfgExample) else none) ∧
    ((senderFrames cfgExample [[1, 2, 3], [4, 5]]).getD 1 dummyFrame).audio
      = base64Encode (([[1, 2, 3], [4, 5]].flatMap (chunksOf 1280)).getD 1 []) ∧
    (chunksOf 1280 [1, 2, 3]).flatten = [1, 2, 3] ∧
    ([1, 2, 3] : List Nat).length ≤ 1280 ∧
    (closeEndFrame cfgExample).dataStatus = 2 ∧
    (closeEndFrame cfgExample).audio = "" :=
  claim3_first_middle_end_frames cfgExample [[1, 2, 3], [4, 5]] 1 [1, 2, 3]
    [1, 2, 3] (by decide) (by decide) (by decide)

/-! ## Claim C4 -/

/-- Claim C4, counterexample: a Deepgram session that connected and was then
closed has status `Closed`, yet `push` of the non-empty chunk `b"\x00\x01"`
returns `true` and enqueues it — the claim's "returns false and does not
enqueue" fails for this adapter. -/
theorem claim4_deepgram_push_after_close :
    dgClosedState.status = Status.closed ∧
    (deepgramPush true dgClosedState [0, 1]).1 = true ∧
    (deepgramPush true dgClosedState [0, 1]).2.queue = [[0, 1]] := by
  refine ⟨by decide, by decide, by decide⟩

/-- Claim C4, amended: for the Google and iFlytek adapters, `push` on any
reachable session whose status is `Closed` returns `false` and leaves the
state (queue included) unchanged; the Deepgram adapter's `push` does not
check `Closed` — on a closed session with non-empty audio it enqueues the
bytes, sets the status to `Streaming`, and returns `true`. -/
theorem claim4_push_on_closed (gst : GSession) (ist : ISession)
    (dst : DgSession) (gd idt dd : List Nat) (ok : Bool)
    (hg : GReachable gst) (hgc : gst.status = Status.closed)
    (hi : IReachable ist) (hic : ist.status = Status.closed)
    (hd : dst.status = Status.closed) (hdd : dd ≠ []) :
    googlePush gst gd = (false, gst) ∧
    iflytekPush ist idt = (false, ist) ∧
    deepgramPush ok dst dd =
      (true, { dst with queue := dst.queue ++ [dd],
                        status := Status.streaming }) := by
  have hgf := gReachable_closed_flag hg hgc
  have hif := iReachable_closed_flag hi hic
  refine ⟨?_, ?_, ?_⟩
  · simp [googlePush, hgf]
  · simp [iflytekPush, hif]
  · simp [deepgramPush, hdd, hd]

/-- Claim C4 witness: concrete closed sessions of each adapter. -/
theorem claim4_push_on_closed_app :
    googlePush gClosedState [7] = (false, gClosedState) ∧
    iflytekPush iClosedState [7] = (false, iClosedState) ∧
    deepgramPush true dgClosedState [7] =
      (true, { dgClosedState with queue := dgClosedState.queue ++ [[7]],
                                  status := Status.streaming }) :=
  claim4_push_on_closed gClosedState iClosedState dgClosedState [7] [7] [7]
    true (GReachable.step GOp.close GReachable.init) (by decide)
    (IReachable.step IOp.close IReachable.init) (by decide)
    (by decide) (by decide)

/-! ## Claim C5 -/

/-- Claim C5, counterexample: a reachable Deepgram execution — connect
successfully, close, then push non-empty audio — moves the status from
`Closed` to `Streaming`, so `Closed` is not terminal and the edge set of the
claim is violated. -/
theorem claim5_closed_not_terminal :
    DgReachable dgClosedState ∧
    dgClosedState.status = Status.closed ∧
    (dgStep dgClosedState (DgOp.push true [0])).status = Status.streaming ∧
    DgReachable (dgStep dgClosedState (DgOp.push true [0])) := by
  have base : DgReachable dgClosedState :=
    DgReachable.step DgOp.close (DgReachable.step DgOp.connectOk
      (DgReachable.step DgOp.connectStart DgReachable.init))
  exact ⟨base, by decide, by decide, DgReachable.step (DgOp.push true [0]) base⟩

/-- Claim C5, amended: `Closed` is terminal with respect to `push` and
`close` for the Google and iFlytek adapters (on any reachable closed session
neither changes the status), but not for Deepgram, whose `push` on a closed
session with non-empty audio moves the status to `Streaming`. -/
theorem claim5_closed_terminality (gst : GSession) (ist : ISession)
    (dst : DgSession) (gd idt dd : List Nat) (ok : Bool)
    (hg : GReachable gst) (hgc : gst.status = Status.closed)
    (hi : IReachable ist) (hic : ist.status = Status.closed)
    (hd : dst.status = Status.closed) (hdd : dd ≠ []) :
    ((googlePush gst gd).2.status = Status.closed ∧
     (googleClose gst).status = Status.closed) ∧
    ((iflytekPush ist idt).2.status = Status.closed ∧
     (iflytekClose ist).status = Status.closed) ∧
    (deepgramPush ok dst dd).2.status = Status.streaming := by
  have hgf := gReachable_closed_flag hg hgc
  have hif := iReachable_closed_flag hi hic
  refine ⟨⟨?_, ?_⟩, ⟨?_, ?_⟩, ?_⟩
  · simp [googlePush, hgf, hgc]
  · simp [googleClose, hgf, hgc]
  · simp [iflytekPush, hif, hic]
  · simp [iflytekClose, hif, hic]
  · simp [deepgramPush, hdd, hd]

/-- Claim C5 witness: concrete closed sessions of each adapter. -/
theorem claim5_closed_terminality_app :
    ((googlePush gClosedState [9]).2.status = Status.closed ∧
     (googleClose gClosedState).status = Status.closed) ∧
    ((iflytekPush iClosedState [9]).2.status = Status.closed ∧
     (iflytekClose iClosedState).status = Status.closed) ∧
    (deepgramPush false dgClosedState [9]).2.status = Status.streaming :=
  claim5_closed_terminality gClosedState iClosedState dgClosedState [9] [9]
    [9] false (GReachable.step GOp.close GReachable.init) (by decide)
    (IReachable.step IOp.close IReachable.init) (by decide)
    (by decide) (by decide)

/-! ## Claim C6 -/

/-- Claim C6: a successful message whose `data.status` is the last-frame
sentinel 2 and whose result parses to non-empty text emits exactly one final
transcript event, carrying the updated accumulated buffer (or the raw parsed
text when the buffer is empty), provided that text is non-empty after
stripping — and the aggregation state (buffer and last emitted partial) is
reset to empty afterwards. -/
theorem claim6_last_frame_final (st : AggState) (r : IflyResult)
    (ft lang : String)
    (hr : parseResultText r ≠ "")
    (hft : ft = (if updateAggregateText st.aggText r = "" then parseResultText r
                 else updateAggregateText st.aggText r))
    (hlang : lang = detectLang (parseResultText r))
    (hblank : pyStrip ft ≠ "") :
    (onMessage st 0 2 (some r)).2.filter isFinalEv = [TEvent.finalRes ft lang] ∧
    (onMessage st 0 2 (some r)).1 = { aggText := "", lastPartialText := "" } := by
  subst hft
  subst hlang
  simp only [onMessage, ne_eq, not_true_eq_false, if_false, hr, if_neg]
  set agg := updateAggregateText st.aggText r with hagg
  set text := parseResultText r with htext
  simp only [reduceIte]
  refine ⟨?_, trivial⟩
  rw [List.filter_append]
  by_cases hP : (if agg = "" then text else agg) = st.lastPartialText
  · rw [if_neg (not_not_intro hP), if_neg hblank]
    simp [isFinalEv]
  · rw [if_pos hP, if_neg hblank, if_neg hblank]
    simp [isFinalEv]

/-- Claim C6 witness: the Scenario C frame sequence with statuses
`[0,1,1,2]` accumulating `"hi there"` yields exactly one final event
`"hi there"` and resets the aggregation state. -/
theorem claim6_last_frame_final_app :
    (onMessage
        (onMessage
          (onMessage
            (onMessage { aggText := "", lastPartialText := "" } 0 0
              (some { ws := [["hi"]], pgs := none, rg := [] })).1 0 1
            (some { ws := [[" the"]], pgs := none, rg := [] })).1 0 1
          (some { ws := [["r"]], pgs := none, rg := [] })).1 0 2
        (some { ws := [["e"]], pgs := some "apd", rg := [0, 1] })).2.filter
      isFinalEv = [TEvent.finalRes "hi there" "en-US"] ∧
    (onMessage
        (onMessage
          (onMessage
            (onMessage { aggText := "", lastPartialText := "" } 0 0
              (some { ws := [["hi"]], pgs := none, rg := [] })).1 0 1
            (some { ws := [[" the"]], pgs := none, rg := [] })).1 0 1
          (some { ws := [["r"]], pgs := none, rg := [] })).1 0 2
        (some { ws := [["e"]], pgs := some "apd", rg := [0, 1] })).1 =
      { aggText := "", lastPartialText := "" } :=
  claim6_last_frame_final _ _ "hi there" "en-US"
    (by decide) (by decide) (by decide) (by decide)

end MeetingTranslate
